import Mathlib

/-!
Shallow embedding of the MQTT tank control panel (src/app/page.tsx).

The component keeps React state: `client` (null until the dynamic MQTT
module load completes), `isConnected`, `tankLevel`, `mode`, and the four
switches.  Event handlers mutate that state and emit `client.publish`
calls; we model each handler as a pure function from the state to a new
state together with the list of publish calls it performs.  Numbers are
modelled as `ℚ` (JavaScript doubles, restricted to the finite decimal
values the wire protocol carries), with the IEEE infinities that
`Number.parseFloat` can produce modelled explicitly.
-/

attribute [local semireducible] Rat.add Rat.mul Rat.inv Rat.sub

/-- The four controllable channels of `SwitchState` in page.tsx. -/
inductive Channel
  | power1
  | power2
  | power3
  | pump
  deriving DecidableEq

/-- `type Mode = 'manual' | 'automatic'` from page.tsx. -/
inductive Mode
  | manual
  | automatic
  deriving DecidableEq

/-- The string a `Mode` value denotes (the TS type is a string union). -/
def modeString : Mode → String
  | Mode.manual => "manual"
  | Mode.automatic => "automatic"

/-- `interface SwitchState` from page.tsx: one boolean per channel. -/
structure SwitchState where
  power1 : Bool
  power2 : Bool
  power3 : Bool
  pump : Bool
  deriving DecidableEq

/-- Read one channel of a `SwitchState` (property access `switches[c]`). -/
def SwitchState.get : SwitchState → Channel → Bool
  | sw, Channel.power1 => sw.power1
  | sw, Channel.power2 => sw.power2
  | sw, Channel.power3 => sw.power3
  | sw, Channel.pump => sw.pump

/-- Functional update of one channel: `{ ...prev, [switchName]: b }`. -/
def SwitchState.set : SwitchState → Channel → Bool → SwitchState
  | sw, Channel.power1, b => { sw with power1 := b }
  | sw, Channel.power2, b => { sw with power2 := b }
  | sw, Channel.power3, b => { sw with power3 := b }
  | sw, Channel.pump, b => { sw with pump := b }

/-- The React state of `MQTTControlPanel`.  `hasClient` records whether the
`client` useState cell is non-null (it starts as `null` and is set once
`initMQTT` finishes). -/
structure PanelState where
  hasClient : Bool
  isConnected : Bool
  tankLevel : ℚ
  mode : Mode
  switches : SwitchState
  deriving DecidableEq

/-- The initial `useState` values of page.tsx: no client, disconnected,
`tankLevel = 0`, `mode = 'manual'`, all switches off. -/
def initialState : PanelState :=
  { hasClient := false
    isConnected := false
    tankLevel := 0
    mode := Mode.manual
    switches := { power1 := false, power2 := false, power3 := false, pump := false } }

/-- A result of JavaScript `Number.parseFloat` that passed the `isNaN`
check: a finite value or one of the IEEE infinities (`parseFloat` of
`"Infinity"`/`"-Infinity"`). -/
inductive JSNum
  | finite (q : ℚ)
  | posInf
  | negInf
  deriving DecidableEq

/-- Value of a digit string read in base 10. -/
def digitsVal (ds : List Char) : Nat :=
  ds.foldl (fun acc c => 10 * acc + (c.toNat - '0'.toNat)) 0

/-- Value of the fractional digit string after the decimal point. -/
def fracVal (ds : List Char) : ℚ :=
  (digitsVal ds : ℚ) / ((10 : ℚ) ^ ds.length)

/-- Parse the decimal mantissa at the head of the character list:
digits, an optional point, more digits; at least one digit in total.
Returns the value and the unconsumed rest (JS `parseFloat` reads the
longest valid numeric prefix and ignores trailing characters). -/
def parseMantissa (cs : List Char) : Option (ℚ × List Char) :=
  let ip := cs.takeWhile Char.isDigit
  let rest := cs.dropWhile Char.isDigit
  match rest with
  | '.' :: rest2 =>
      let fp := rest2.takeWhile Char.isDigit
      let rest3 := rest2.dropWhile Char.isDigit
      if ip.isEmpty && fp.isEmpty then none
      else some ((digitsVal ip : ℚ) + fracVal fp, rest3)
  | _ => if ip.isEmpty then none else some ((digitsVal ip : ℚ), rest)

/-- Parse an optional exponent suffix `e`/`E`, optional sign, digits;
an `e` not followed by at least one digit contributes exponent 0 (JS
`parseFloat` stops at the last valid position). -/
def parseExponent (cs : List Char) : Int :=
  match cs with
  | [] => 0
  | c :: rest =>
      if c == 'e' || c == 'E' then
        let signed : Bool × List Char :=
          match rest with
          | '-' :: r => (true, r)
          | '+' :: r => (false, r)
          | _ => (false, rest)
        let ds := signed.2.takeWhile Char.isDigit
        if ds.isEmpty then 0
        else if signed.1 then -(digitsVal ds : Int) else (digitsVal ds : Int)
      else 0

/-- Multiply a parsed mantissa by `10 ^ e`. -/
def applyExp (q : ℚ) (e : Int) : ℚ :=
  if 0 ≤ e then q * (10 : ℚ) ^ e.toNat else q / (10 : ℚ) ^ (-e).toNat

/-- Model of JavaScript `Number.parseFloat` composed with the `!isNaN`
guard of the message handler: skip leading whitespace, optional sign,
then either `Infinity` or a decimal mantissa with optional exponent;
`none` models `NaN` (no numeric prefix). -/
def jsParseFloat (s : String) : Option JSNum :=
  let cs := s.data.dropWhile Char.isWhitespace
  let signed : Bool × List Char :=
    match cs with
    | '-' :: r => (true, r)
    | '+' :: r => (false, r)
    | _ => (false, cs)
  if List.isPrefixOf "Infinity".data signed.2 then
    some (if signed.1 then JSNum.negInf else JSNum.posInf)
  else
    match parseMantissa signed.2 with
    | none => none
    | some (q, rest) =>
        let v := applyExp q (parseExponent rest)
        some (JSNum.finite (if signed.1 then -v else v))

/-- `Math.max(0, Math.min(100, level))` from the `/level` branch,
evaluated on the extended values `parseFloat` can return:
`min 100 ∞ = 100` so `+∞` clamps to 100, and `max 0 (-∞) = 0`. -/
def clampLevel : JSNum → ℚ
  | JSNum.finite q => max 0 (min 100 q)
  | JSNum.posInf => 100
  | JSNum.negInf => 0

/-- Model of JavaScript `String.prototype.toLowerCase` on the payloads
this handler compares (ASCII lowering; no non-ASCII character lowercases
to an ASCII letter, so the comparison with `"on"` agrees). -/
def jsToLowerCase (s : String) : String :=
  String.mk (s.data.map Char.toLower)

/-- The topic→channel `switchMap` object of the message handler
(page.tsx lines 81–86). -/
def switchMap (topic : String) : Option Channel :=
  if topic = "/power1" then some Channel.power1
  else if topic = "/power2" then some Channel.power2
  else if topic = "/power3" then some Channel.power3
  else if topic = "/pump" then some Channel.pump
  else none

/-- The channel→topic `topicMap` object of `handleSwitchChange`
(page.tsx lines 145–150). -/
def topicMap : Channel → String
  | Channel.power1 => "/power1"
  | Channel.power2 => "/power2"
  | Channel.power3 => "/power3"
  | Channel.pump => "/pump"

/-- The `mqttClient.on("message", ...)` handler (page.tsx lines 69–94):
on `/level`, parse the payload as a float and, unless it is NaN, clamp
it to [0,100] and store it; on a channel topic, set that channel to
whether the lowercased payload equals `"on"`; otherwise do nothing. -/
def onMessage (s : PanelState) (topic payload : String) : PanelState :=
  if topic = "/level" then
    match jsParseFloat payload with
    | some n => { s with tankLevel := clampLevel n }
    | none => s
  else if topic = "/power1" ∨ topic = "/power2" ∨ topic = "/power3" ∨ topic = "/pump" then
    let isOn := jsToLowerCase payload == "on"
    match switchMap topic with
    | some switchName => { s with switches := s.switches.set switchName isOn }
    | none => s
  else s

/-- `publishSwitchState` (page.tsx lines 121–135): if the client exists
and is connected, publish `"on"`/`"off"` to the topic; otherwise do
nothing.  The result is the list of `client.publish` calls performed. -/
def publishSwitchState (s : PanelState) (topic : String) (state : Bool) :
    List (String × String) :=
  if s.hasClient && s.isConnected then
    [(topic, if state then "on" else "off")]
  else []

/-- `handleSwitchChange` (page.tsx lines 137–153): a no-op in automatic
mode; in manual mode, optimistically set the switch and call
`publishSwitchState` on the channel's topic.  Returns the new state and
the `client.publish` calls performed. -/
def handleSwitchChange (s : PanelState) (switchName : Channel) (checked : Bool) :
    PanelState × List (String × String) :=
  if s.mode = Mode.automatic then (s, [])
  else
    let s1 := { s with switches := s.switches.set switchName checked }
    (s1, publishSwitchState s1 (topicMap switchName) checked)

/-- `handleModeChange` (page.tsx lines 155–159): set the mode locally,
then call `client.publish('/mode', newMode)` with no null check.  The
third component records whether a TypeError escaped the handler: when
`client` is null, `client.publish` throws — after `setMode` has already
enqueued the state update, so the local mode still changes — and no
publish call happens. -/
def handleModeChange (s : PanelState) (isAutomatic : Bool) :
    PanelState × List (String × String) × Bool :=
  let newMode := if isAutomatic then Mode.automatic else Mode.manual
  let s1 := { s with mode := newMode }
  if s.hasClient then (s1, [("/mode", modeString newMode)], false)
  else (s1, [], true)

/-- The two `mqttClient.subscribe` calls issued by the
`mqttClient.on("connect", ...)` handler (page.tsx lines 52–67): one for
`"/level"`, one for the array of the four channel topics. -/
def connectSubscribeCalls : List (List String) :=
  [["/level"], ["/power1", "/power2", "/power3", "/pump"]]

/-- The connect handler: `setIsConnected(true)` and the subscribe calls. -/
def onConnect (s : PanelState) : PanelState × List (List String) :=
  ({ s with isConnected := true }, connectSubscribeCalls)

/-- All topics covered by the subscribe calls of the connect handler. -/
def subscribedTopics : List String :=
  connectSubscribeCalls.flatten

/-- The `mqttClient.on("error", ...)` handler: `setIsConnected(false)`. -/
def onErrorEvt (s : PanelState) : PanelState :=
  { s with isConnected := false }

/-- The `mqttClient.on("close", ...)` handler: `setIsConnected(false)`. -/
def onCloseEvt (s : PanelState) : PanelState :=
  { s with isConnected := false }

/-- One event the component reacts to: client creation (`setClient` at
the end of `initMQTT`), the connection lifecycle events, an inbound
broker message, or one of the two operator handlers. -/
inductive Event
  | clientInit
  | connect
  | errEvt
  | closeEvt
  | message (topic payload : String)
  | switchChange (c : Channel) (checked : Bool)
  | modeChange (isAutomatic : Bool)

/-- The state transition each event causes (publish/subscribe output and
the thrown-error flag dropped; React applies the enqueued state update of
`handleModeChange` even when the subsequent `client.publish` throws). -/
def step (s : PanelState) (e : Event) : PanelState :=
  match e with
  | Event.clientInit => { s with hasClient := true }
  | Event.connect => (onConnect s).1
  | Event.errEvt => onErrorEvt s
  | Event.closeEvt => onCloseEvt s
  | Event.message t p => onMessage s t p
  | Event.switchChange c v => (handleSwitchChange s c v).1
  | Event.modeChange b => (handleModeChange s b).1

/-- Run a list of events from a given state. -/
def runFrom (s : PanelState) (evs : List Event) : PanelState :=
  evs.foldl step s

/-- Run a list of events from the initial state: the reachable states of
the session are exactly the values of `run`. -/
def run (evs : List Event) : PanelState :=
  runFrom initialState evs

/-- The tank-level invariant: `tankLevel` stays in the closed range
[0, 100]. -/
def levelInv (s : PanelState) : Prop :=
  0 ≤ s.tankLevel ∧ s.tankLevel ≤ 100

/-! ## Helper lemmas -/

theorem SwitchState.get_set (sw : SwitchState) (c : Channel) (b : Bool) :
    (sw.set c b).get c = b := by
  cases c <;> rfl

theorem switchMap_topicMap (c : Channel) : switchMap (topicMap c) = some c := by
  cases c <;> rfl

theorem onMessage_channel (s : PanelState) (c : Channel) (p : String) :
    onMessage s (topicMap c) p =
      { s with switches := s.switches.set c (jsToLowerCase p == "on") } := by
  cases c <;> rfl

theorem onMessage_level (s : PanelState) (p : String) :
    onMessage s "/level" p =
      match jsParseFloat p with
      | some n => { s with tankLevel := clampLevel n }
      | none => s := rfl

theorem onMessage_mode (s : PanelState) (t p : String) :
    (onMessage s t p).mode = s.mode := by
  unfold onMessage
  split
  · rcases jsParseFloat p with _ | n <;> rfl
  · split
    · rcases switchMap t with _ | c <;> rfl
    · rfl

theorem onMessage_tankLevel (s : PanelState) (t p : String) :
    (onMessage s t p).tankLevel = s.tankLevel ∨
      ∃ n, (onMessage s t p).tankLevel = clampLevel n := by
  unfold onMessage
  split
  · rcases jsParseFloat p with _ | n
    · left; rfl
    · right; exact ⟨n, rfl⟩
  · split
    · rcases switchMap t with _ | c <;> left <;> rfl
    · left; rfl

theorem clampLevel_nonneg (n : JSNum) : 0 ≤ clampLevel n := by
  cases n with
  | finite q => exact le_max_left 0 _
  | posInf => norm_num [clampLevel]
  | negInf => norm_num [clampLevel]

theorem clampLevel_le (n : JSNum) : clampLevel n ≤ 100 := by
  cases n with
  | finite q => exact max_le (by norm_num) (min_le_left _ _)
  | posInf => norm_num [clampLevel]
  | negInf => norm_num [clampLevel]

theorem handleSwitchChange_tankLevel (s : PanelState) (c : Channel) (v : Bool) :
    (handleSwitchChange s c v).1.tankLevel = s.tankLevel := by
  rcases hm : s.mode <;> simp [handleSwitchChange, hm]

theorem handleModeChange_tankLevel (s : PanelState) (b : Bool) :
    (handleModeChange s b).1.tankLevel = s.tankLevel := by
  rcases hc : s.hasClient <;> simp [handleModeChange, hc]

theorem step_levelInv (s : PanelState) (e : Event) (h : levelInv s) :
    levelInv (step s e) := by
  cases e with
  | message t p =>
      rcases onMessage_tankLevel s t p with h1 | ⟨n, h1⟩
      · exact ⟨h1 ▸ h.1, h1 ▸ h.2⟩
      · exact ⟨h1 ▸ clampLevel_nonneg n, h1 ▸ clampLevel_le n⟩
  | clientInit => exact h
  | connect => exact h
  | errEvt => exact h
  | closeEvt => exact h
  | switchChange c v =>
      have e1 : (step s (Event.switchChange c v)).tankLevel = s.tankLevel :=
        handleSwitchChange_tankLevel s c v
      unfold levelInv
      rw [e1]
      exact h
  | modeChange b =>
      have e1 : (step s (Event.modeChange b)).tankLevel = s.tankLevel :=
        handleModeChange_tankLevel s b
      unfold levelInv
      rw [e1]
      exact h

theorem runFrom_levelInv (evs : List Event) (s : PanelState) (h : levelInv s) :
    levelInv (runFrom s evs) := by
  induction evs generalizing s with
  | nil => exact h
  | cons e evs ih => exact ih (step s e) (step_levelInv s e h)

/-! ## Claim theorems -/

/-- Claim C1: for every channel and boolean, `handleSwitchChange` in
automatic mode leaves the whole state (in particular all four channels)
unchanged and performs no publish call, in every connection state. -/
theorem automatic_switch_noop (s : PanelState) (c : Channel) (v : Bool)
    (h : s.mode = Mode.automatic) :
    handleSwitchChange s c v = (s, []) := by
  simp [handleSwitchChange, h]

/-- Witness for C1: the no-op at a concrete automatic-mode state. -/
theorem automatic_switch_noop_witness :
    ({ initialState with mode := Mode.automatic } : PanelState).mode = Mode.automatic ∧
      handleSwitchChange { initialState with mode := Mode.automatic } Channel.pump true =
        ({ initialState with mode := Mode.automatic }, []) :=
  ⟨rfl, automatic_switch_noop { initialState with mode := Mode.automatic } Channel.pump true rfl⟩

/-- Claim C2: from any state in manual mode, a local `setChannel(C, true)`
followed by an inbound `"off"` report on C's topic leaves channel C off:
the inbound report overwrites the local optimistic write. -/
theorem inbound_off_overwrites_local (s : PanelState) (c : Channel)
    (h : s.mode = Mode.manual) :
    (onMessage (handleSwitchChange s c true).1 (topicMap c) "off").switches.get c = false := by
  rw [onMessage_channel, SwitchState.get_set]
  decide

/-- Witness for C2 at the initial (manual-mode) state on the pump. -/
theorem inbound_off_overwrites_local_witness :
    initialState.mode = Mode.manual ∧
      (onMessage (handleSwitchChange initialState Channel.pump true).1 (topicMap Channel.pump)
          "off").switches.get Channel.pump = false :=
  ⟨rfl, inbound_off_overwrites_local initialState Channel.pump rfl⟩

/-- Claim C3: for every state, channel and payload, the message handler
sets the channel to true exactly when the lowercased payload equals
`"on"`, and it never touches the mode — so it applies in manual and
automatic mode alike. -/
theorem channel_report_sets_iff (s : PanelState) (c : Channel) (p : String) :
    ((onMessage s (topicMap c) p).switches.get c = true ↔ jsToLowerCase p = "on") ∧
      (onMessage s (topicMap c) p).mode = s.mode := by
  constructor
  · rw [onMessage_channel, SwitchState.get_set]
    exact beq_iff_eq
  · exact onMessage_mode s (topicMap c) p

/-- Witness for C3: payload `"On"` turns the pump on. -/
theorem channel_report_sets_iff_witness :
    ((onMessage initialState (topicMap Channel.pump) "On").switches.get Channel.pump = true ↔
        jsToLowerCase "On" = "on") ∧
      (onMessage initialState (topicMap Channel.pump) "On").mode = initialState.mode :=
  channel_report_sets_iff initialState Channel.pump "On"

/-- Claim C4: a `/level` payload that does not parse leaves the state
unchanged; one that parses to `n` sets `tankLevel` to the clamp of `n`
into [0,100], so the result is always within [0,100]. -/
theorem level_message_clamps (s : PanelState) (p : String) :
    (jsParseFloat p = none → onMessage s "/level" p = s) ∧
      ∀ n, jsParseFloat p = some n →
        (onMessage s "/level" p).tankLevel = clampLevel n ∧
          0 ≤ (onMessage s "/level" p).tankLevel ∧
          (onMessage s "/level" p).tankLevel ≤ 100 := by
  constructor
  · intro h
    rw [onMessage_level, h]
  · intro n h
    rw [onMessage_level, h]
    exact ⟨rfl, clampLevel_nonneg n, clampLevel_le n⟩

/-- Witness for C4: the out-of-range payload `"250"` parses and is
clamped to 100. -/
theorem level_message_clamps_witness :
    (onMessage initialState "/level" "250").tankLevel = clampLevel (JSNum.finite 250) ∧
      0 ≤ (onMessage initialState "/level" "250").tankLevel ∧
      (onMessage initialState "/level" "250").tankLevel ≤ 100 :=
  (level_message_clamps initialState "250").2 (JSNum.finite 250) (by decide)

/-- Counterexample for C5: at the initial state (manual mode, client not
yet created, disconnected), `handleSwitchChange` sets the switch but
performs no publish call at all, so it does not issue exactly one
publish while the connection is not Connected. -/
theorem manual_switch_counterexample :
    initialState.mode = Mode.manual ∧ initialState.isConnected = false ∧
      (handleSwitchChange initialState Channel.power1 true).1.switches.power1 = true ∧
      (handleSwitchChange initialState Channel.power1 true).2 = [] := by
  decide

/-- Claim C5 (amended): in manual mode `handleSwitchChange` sets the
channel to the requested value in every connection state, and performs
exactly one publish — to the channel's topic, with payload `"on"`/`"off"`
matching the value — precisely when the client exists and is connected;
otherwise the publish request is silently dropped. -/
theorem manual_switch_sets_and_publishes (s : PanelState) (c : Channel) (v : Bool)
    (h : s.mode = Mode.manual) :
    (handleSwitchChange s c v).1 = { s with switches := s.switches.set c v } ∧
      (handleSwitchChange s c v).2 =
        (if s.hasClient && s.isConnected then [(topicMap c, if v then "on" else "off")]
          else []) := by
  have hm : s.mode ≠ Mode.automatic := by rw [h]; exact fun hh => Mode.noConfusion hh
  simp [handleSwitchChange, hm, publishSwitchState]

/-- Witness for C5 at a connected manual-mode state: switching the pump
on publishes `"on"` to `/pump` once. -/
theorem manual_switch_sets_and_publishes_witness :
    (handleSwitchChange { initialState with hasClient := true, isConnected := true }
          Channel.pump true).1 =
        { ({ initialState with hasClient := true, isConnected := true } : PanelState) with
            switches :=
              ({ initialState with hasClient := true, isConnected := true } :
                  PanelState).switches.set Channel.pump true } ∧
      (handleSwitchChange { initialState with hasClient := true, isConnected := true }
          Channel.pump true).2 =
        (if ({ initialState with hasClient := true, isConnected := true } :
              PanelState).hasClient &&
            ({ initialState with hasClient := true, isConnected := true } :
              PanelState).isConnected then
          [(topicMap Channel.pump, if true then "on" else "off")]
        else []) :=
  manual_switch_sets_and_publishes
    { initialState with hasClient := true, isConnected := true } Channel.pump true rfl

/-- Claim C6, evaluated at the failing input: a mode toggle before the
MQTT client exists (the `client` useState cell still null) flips the
local mode but performs no publish call and lets a TypeError escape
(`client.publish` on null has no guard in `handleModeChange`), so the
toggle does not publish to `/mode` exactly once. -/
theorem mode_change_null_client :
    (handleModeChange initialState true).1.mode = Mode.automatic ∧
      (handleModeChange initialState true).2.1 = [] ∧
      (handleModeChange initialState true).2.2 = true := by
  decide

/-- Claim C7, evaluated at the failing input: `handleModeChange` called
while the client is null raises a TypeError on the caller's control-flow
path (the thrown-error flag of the model is set). -/
theorem setMode_throws_on_null_client :
    initialState.hasClient = false ∧ (handleModeChange initialState false).2.2 = true := by
  decide

/-- Counterexample for C8: the connect handler's subscribe calls do not
cover the `/mode` topic. -/
theorem mode_topic_not_subscribed :
    ¬ ("/mode" ∈ (onConnect initialState).2.flatten) := by
  decide

/-- Claim C8 (amended): on every successful connection the connect
handler sets the connected flag and issues subscribe requests covering
exactly `/level`, `/power1`, `/power2`, `/power3` and `/pump` — the
`/mode` topic is not subscribed. -/
theorem connect_subscribes (s : PanelState) :
    (onConnect s).1.isConnected = true ∧
      (onConnect s).2.flatten = ["/level", "/power1", "/power2", "/power3", "/pump"] :=
  ⟨rfl, rfl⟩

/-- Claim C9: `tankLevel` lies in [0,100] initially, every event of the
session preserves that bound, and hence it holds in every reachable
state (every state produced by running a list of events from the initial
state). -/
theorem tankLevel_invariant :
    levelInv initialState ∧ (∀ s e, levelInv s → levelInv (step s e)) ∧
      ∀ evs, levelInv (run evs) :=
  ⟨⟨le_refl 0, by decide⟩,
   fun s e h => step_levelInv s e h,
   fun evs => runFrom_levelInv evs initialState ⟨le_refl 0, by decide⟩⟩

/-- Witness for C9: the preservation part applied at the initial state
and a connect event, and the reachability part on a concrete run. -/
theorem tankLevel_invariant_witness :
    levelInv (step initialState Event.connect) ∧
      levelInv (run [Event.message "/level" "250"]) :=
  ⟨tankLevel_invariant.2.1 initialState Event.connect tankLevel_invariant.1,
   tankLevel_invariant.2.2 [Event.message "/level" "250"]⟩

/-- Claim C10: the inbound-message handler never changes the control
mode, for every topic and payload; in particular a message on `/mode`
leaves the whole state unchanged (it is silently ignored). -/
theorem inbound_preserves_mode (s : PanelState) (topic payload : String) :
    (onMessage s topic payload).mode = s.mode ∧ onMessage s "/mode" payload = s :=
  ⟨onMessage_mode s topic payload, rfl⟩
